import Mathlib

/-!
Verification of the credential/session lifecycle subsystem of the
introgy backend: a shallow embedding of `app/core/token_manager.py`,
`app/core/security.py` and `app/routers/auth.py`, with theorems about
revocation, rotation, token verification, OTP challenges and the
password-reset path.

Time is modelled as `Nat` (seconds since an arbitrary epoch); MongoDB
collections are modelled as ordered lists of documents, `find_one`
returning the first match, `update_one` updating the first match, and
`delete_one` deleting the first match. `modified_count` follows MongoDB
semantics: a document counts as modified only if the update actually
changed it.
-/

/-- An HTTP error raised by the application (`HTTPException`): a status
code and a detail string. -/
structure HTTPErr where
  status : Nat
  detail : String
deriving DecidableEq, Repr

/-- A document in the token-manager collection (`token_manager.py` keeps
blacklist records and refresh-token records in the same collection):
`blk` is a blacklist record `{token_id, blacklisted_at, reason}` written
by `blacklist_token`, `ref` is a refresh record
`{token_id, user_id, created_at}` written by `rotate_refresh_token`. -/
inductive TMDoc where
  | blk (token_id : String) (blacklisted_at : Nat) (reason : String)
  | ref (token_id : String) (user_id : String) (created_at : Nat)
deriving DecidableEq, Repr

/-- The `token_id` field, present on both document shapes. -/
def TMDoc.tokenId : TMDoc → String
  | .blk t _ _ => t
  | .ref t _ _ => t

/-- Whether a document matches the Mongo filter
`{"blacklisted_at": {"$lt": now}}`: refresh records have no
`blacklisted_at` field and never match. -/
def TMDoc.blacklistedBefore (now : Nat) : TMDoc → Bool
  | .blk _ t _ => t < now
  | .ref _ _ _ => false

/-- State of a `TokenManager`: the durable collection and the in-memory
`_blacklisted_tokens` set (modelled as a duplicate-free list). -/
structure TMState where
  collection : List TMDoc
  cache : List String
deriving DecidableEq, Repr

/-- `set.add`: insert a string into the cache if absent (a no-op when
already present, as for a Python set). -/
def cacheAdd (c : List String) (t : String) : List String :=
  if t ∈ c then c else c ++ [t]

/-- `TokenManager.blacklist_token`: unconditionally insert a blacklist
document into the durable collection, then add the id to the cache. -/
def blacklist_token (s : TMState) (token_id : String) (reason : String)
    (now : Nat) : TMState :=
  { collection := s.collection ++ [.blk token_id now reason],
    cache := cacheAdd s.cache token_id }

/-- `TokenManager.is_token_blacklisted`: check the memory cache first;
on a miss query the durable store (`find_one {"token_id": token_id}`,
matching any document shape) and backfill the cache on a hit. Returns
the boolean together with the (possibly cache-updated) state. -/
def is_token_blacklisted (s : TMState) (token_id : String) :
    Bool × TMState :=
  if token_id ∈ s.cache then (true, s)
  else if s.collection.any (fun d => d.tokenId == token_id) then
    (true, { s with cache := cacheAdd s.cache token_id })
  else (false, s)

/-- `TokenManager.cleanup_expired_tokens`: `delete_many` of every
document matching `{"blacklisted_at": {"$lt": utcnow()}}`; returns the
deleted count and the new state (the cache is not touched). -/
def cleanup_expired_tokens (s : TMState) (now : Nat) : Nat × TMState :=
  ((s.collection.filter (fun d => d.blacklistedBefore now)).length,
   { s with
     collection := s.collection.filter (fun d => !d.blacklistedBefore now) })

/-- `TokenManager.rotate_refresh_token`: raise 401 if the current token
id is blacklisted; otherwise blacklist it with reason `"rotated"` and
insert a refresh record for the new id. -/
def rotate_refresh_token (s : TMState) (current_token_id new_token_id
    user_id : String) (now : Nat) : Except HTTPErr TMState :=
  let r := is_token_blacklisted s current_token_id
  if r.1 then
    .error ⟨401, "Refresh token has been revoked"⟩
  else
    let s₂ := blacklist_token r.2 current_token_id "rotated" now
    .ok { s₂ with collection := s₂.collection ++ [.ref new_token_id user_id now] }

/-- The id just added is in the cache. -/
theorem mem_cacheAdd_self (c : List String) (t : String) :
    t ∈ cacheAdd c t := by
  unfold cacheAdd
  by_cases h : t ∈ c
  · simp [h]
  · simp [h]

/-- Adding an id already present leaves the cache unchanged. -/
theorem cacheAdd_mem (c : List String) (t : String) (h : t ∈ c) :
    cacheAdd c t = c := by
  simp [cacheAdd, h]

/-- C1. The code deletes every blacklist record whose `blacklisted_at`
lies in the past — that is, every record — rather than only records
whose underlying token has naturally expired. Concretely: blacklist a
rotated refresh token id at time 100 (its 30-day natural expiry is far
in the future); one time unit later the sweep reports one deletion,
the durable collection is empty, and a fresh process (empty cache)
no longer sees the id as blacklisted. -/
theorem cleanup_deletes_unexpired_revocations :
    (cleanup_expired_tokens
      (blacklist_token ⟨[], []⟩ "tid1" "rotated" 100) 101).1 = 1 ∧
    (cleanup_expired_tokens
      (blacklist_token ⟨[], []⟩ "tid1" "rotated" 100) 101).2.collection = [] ∧
    (is_token_blacklisted
      ⟨(cleanup_expired_tokens
          (blacklist_token ⟨[], []⟩ "tid1" "rotated" 100) 101).2.collection,
        []⟩ "tid1").1 = false := by
  refine ⟨rfl, rfl, ?_⟩
  decide

/-- C2. Refresh rotation rejects replay: if a rotation of
`current_token_id` succeeds, the resulting state both records a
blacklist document for it with reason `"rotated"` at the rotation time
and a refresh record for the new id, and any later rotation attempt
presenting `current_token_id` again fails with the 401
`"Refresh token has been revoked"` error. -/
theorem rotate_rejects_replay (s : TMState)
    (cur new user_id : String) (now : Nat) (s' : TMState)
    (h : rotate_refresh_token s cur new user_id now = .ok s') :
    TMDoc.blk cur now "rotated" ∈ s'.collection ∧
    TMDoc.ref new user_id now ∈ s'.collection ∧
    ∀ new₂ uid₂ now₂,
      rotate_refresh_token s' cur new₂ uid₂ now₂ =
        .error ⟨401, "Refresh token has been revoked"⟩ := by
  unfold rotate_refresh_token at h
  by_cases hb : (is_token_blacklisted s cur).1
  · simp [hb] at h
  · simp only [hb, if_neg, ite_false] at h
    have hs' : s' =
        { collection := (blacklist_token (is_token_blacklisted s cur).2 cur "rotated" now).collection ++ [.ref new user_id now],
          cache := (blacklist_token (is_token_blacklisted s cur).2 cur "rotated" now).cache } := by
      cases h
      rfl
    have hcache : cur ∈ s'.cache := by
      rw [hs']
      exact mem_cacheAdd_self _ _
    refine ⟨?_, ?_, ?_⟩
    · rw [hs']
      simp [blacklist_token]
    · rw [hs']
      simp [blacklist_token]
    · intro new₂ uid₂ now₂
      unfold rotate_refresh_token
      have : (is_token_blacklisted s' cur).1 = true := by
        unfold is_token_blacklisted
        simp [hcache]
      simp [this]

/-- Witness for C2 at a concrete state: rotating `"r0"` in the empty
state succeeds, records the rotation, and replaying `"r0"` fails. -/
theorem rotate_rejects_replay_witness :
    TMDoc.blk "r0" 10 "rotated" ∈
      ([TMDoc.blk "r0" 10 "rotated", TMDoc.ref "r1" "u" 10] : List TMDoc) ∧
    rotate_refresh_token
      ⟨[.blk "r0" 10 "rotated", .ref "r1" "u" 10], ["r0"]⟩
      "r0" "r2" "u" 20 =
      .error ⟨401, "Refresh token has been revoked"⟩ := by
  have h := rotate_rejects_replay ⟨[], []⟩ "r0" "r1" "u" 10
    ⟨[.blk "r0" 10 "rotated", .ref "r1" "u" 10], ["r0"]⟩ rfl
  exact ⟨h.1, h.2.2 "r2" "u" 20⟩

/-- C3 counterexample. The second `blacklist_token` call for the same id
is not a no-op on the durable store: starting from the empty state and
blacklisting `"t"` twice, the collection afterwards holds two documents,
so the store did change on the second call. -/
theorem blacklist_second_call_changes_store :
    let s₁ := blacklist_token ⟨[], []⟩ "t" "logout" 5
    let s₂ := blacklist_token s₁ "t" "logout" 7
    s₂.collection.length = 2 ∧ s₂.collection ≠ s₁.collection := by
  decide

/-- C3 amended. `blacklist_token` is observationally idempotent: calling
it twice in sequence raises no error (both calls are total and return a
state), leaves `is_token_blacklisted` returning true, and the second
call leaves the in-memory cache unchanged — but it appends a second
(duplicate) blacklist document to the durable store rather than leaving
it unchanged. -/
theorem blacklist_idempotent_observably (s : TMState)
    (tid r₁ r₂ : String) (t₁ t₂ : Nat) :
    let s₁ := blacklist_token s tid r₁ t₁
    let s₂ := blacklist_token s₁ tid r₂ t₂
    (is_token_blacklisted s₂ tid).1 = true ∧
    s₂.cache = s₁.cache ∧
    s₂.collection = s₁.collection ++ [.blk tid t₂ r₂] := by
  intro s₁ s₂
  refine ⟨?_, ?_, rfl⟩
  · have : tid ∈ s₂.cache := by
      show tid ∈ cacheAdd s₁.cache tid
      exact mem_cacheAdd_self _ _
    simp [is_token_blacklisted, this]
  · show cacheAdd (cacheAdd s.cache tid) tid = cacheAdd s.cache tid
    exact cacheAdd_mem _ _ (mem_cacheAdd_self _ _)

/-- A decode failure from the JWT library (`jose.JWTError` and its
subclasses), carrying the library message `str(e)`: a structurally
malformed token, a bad signature, or an expired token (`jose` checks
`exp` during decode and raises `ExpiredSignatureError`). -/
inductive JWTFail where
  | malformed (m : String)
  | invalidSignature (m : String)
  | expiredSignature (m : String)
deriving DecidableEq, Repr

/-- The library message of a decode failure. -/
def JWTFail.msg : JWTFail → String
  | .malformed m => m
  | .invalidSignature m => m
  | .expiredSignature m => m

/-- The decoded claims dictionary of a token (the fields the code reads,
each optional as `payload.get` may return `None`). -/
structure Payload where
  sub : Option String
  type : Option String
  jti : Option String
deriving DecidableEq, Repr

/-- Outcome of `jwt.decode(token, JWT_SECRET_KEY, algorithms=[...])`:
either the claims payload (signature valid, not expired) or a
`JWTError`. -/
inductive DecodeResult where
  | ok (p : Payload)
  | err (e : JWTFail)
deriving DecidableEq, Repr

/-- `security.verify_token`: on a successful decode, compare the `type`
claim with the expected type and raise 401 on mismatch; any `JWTError`
from decode is caught by the single `except JWTError` handler and
re-raised as a 401 with the library message interpolated. -/
def verify_token (d : DecodeResult) (token_type : String) :
    Except HTTPErr Payload :=
  match d with
  | .ok p =>
      if p.type ≠ some token_type then
        .error ⟨401, "Invalid token type. Expected " ++ token_type⟩
      else .ok p
  | .err e =>
      .error ⟨401, "Could not validate credentials: " ++ e.msg⟩

/-- C4 counterexample. `verify_token` does not distinguish its failure
modes as four kinds with precise 401-vs-400 statuses: a structurally
malformed token, a bad signature, an expired token and a wrong-type
token all map to status 401 (never 400), and a malformed token with
the same library message as a bad-signature token yields a literally
identical error value, so the caller cannot tell them apart. -/
theorem verify_token_conflates_failure_modes :
    verify_token (.err (.malformed "Not enough segments")) "access" =
      verify_token (.err (.invalidSignature "Not enough segments")) "access" ∧
    verify_token (.err (.malformed "Not enough segments")) "access" =
      .error ⟨401, "Could not validate credentials: Not enough segments"⟩ ∧
    verify_token (.err (.expiredSignature "Signature has expired")) "access" =
      .error ⟨401, "Could not validate credentials: Signature has expired"⟩ ∧
    verify_token (.ok ⟨some "u@x.com", some "refresh", some "j"⟩) "access" =
      .error ⟨401, "Invalid token type. Expected access"⟩ := by
  exact ⟨rfl, rfl, rfl, rfl⟩

/-- C4 amended. Every failure of `verify_token` carries HTTP status 401
— status 400 is never returned — and the three decode failure modes
(malformed, bad signature, expired) are collapsed by one handler, so
two of them differing only in kind produce the same error; only the
wrong-type failure has its own detail shape. -/
theorem verify_token_failures_all_401 :
    (∀ d tt e, verify_token d tt = .error e → e.status = 401) ∧
    (∀ m tt,
      verify_token (.err (.malformed m)) tt =
        verify_token (.err (.invalidSignature m)) tt ∧
      verify_token (.err (.malformed m)) tt =
        verify_token (.err (.expiredSignature m)) tt) ∧
    (∀ p tt, verify_token (.ok p) tt ≠
      .error ⟨400, "Could not validate credentials"⟩) := by
  refine ⟨?_, ?_, ?_⟩
  · intro d tt e h
    match d with
    | .ok p =>
      unfold verify_token at h
      by_cases ht : p.type = some tt
      · simp [ht] at h
      · simp [ht] at h
        rw [← h]
    | .err f =>
      unfold verify_token at h
      simp at h
      rw [← h]
  · intro m tt
    exact ⟨rfl, rfl⟩
  · intro p tt h
    unfold verify_token at h
    by_cases ht : p.type = some tt
    · simp [ht] at h
    · simp [ht] at h

/-- C4 amended witness: the theorem applied at a malformed decode with
expected type `"access"`, whose error status is 401. -/
theorem verify_token_failures_all_401_witness :
    (401 : Nat) = 401 :=
  verify_token_failures_all_401.1 (.err (.malformed "bad")) "access"
    ⟨401, "Could not validate credentials: bad"⟩ rfl

/-- A document of a user collection (`IntrogyUsers` or `users`): the
fields written by registration and read by login, OTP verification and
password reset. -/
structure UserDoc where
  email : String
  hashed_password : String
  display_name : Option String
  is_verified : Bool
  created_at : Nat
deriving DecidableEq, Repr

/-- A document of the `otps` collection, as inserted by
`send_verification_code`; `oid` models the Mongo `_id`. -/
structure OTPDoc where
  oid : Nat
  email : String
  code : String
  created_at : Nat
  expires_at : Nat
deriving DecidableEq, Repr

/-- The application's Mongo database: the `IntrogyUsers` collection
(used by registration, login, OTP verification and `get_current_user`),
the distinct `users` collection (used only by `reset_password`), the
`otps` collection, and the token-manager state. -/
structure AppState where
  IntrogyUsers : List UserDoc
  users : List UserDoc
  otps : List OTPDoc
  tokens : TMState
deriving DecidableEq, Repr

/-- `find_one` on `otps` with the filter
`{"email": email, "code": code, "expires_at": {"$gt": now}}`. -/
def find_otp (otps : List OTPDoc) (email code : String) (now : Nat) :
    Option OTPDoc :=
  otps.find? (fun d =>
    d.email == email && d.code == code && decide (now < d.expires_at))

/-- `delete_one({"_id": oid})` on `otps`: remove the first document with
the given id. -/
def delete_one_otp (otps : List OTPDoc) (oid : Nat) : List OTPDoc :=
  match otps with
  | [] => []
  | d :: rest =>
      if d.oid == oid then rest else d :: delete_one_otp rest oid

/-- `update_one({"email": email}, {"$set": {"is_verified": True}})`:
set the flag on the first matching document; `modified_count` is 1 only
if a document matched and was actually changed. -/
def update_one_set_verified (users : List UserDoc) (email : String) :
    List UserDoc × Nat :=
  match users with
  | [] => ([], 0)
  | u :: rest =>
      if u.email == email then
        ({ u with is_verified := true } :: rest,
         if u.is_verified then 0 else 1)
      else
        let r := update_one_set_verified rest email
        (u :: r.1, r.2)

/-- `update_one({"email": email}, {"$set": {"hashed_password": d}})`:
set the digest on the first matching document; `modified_count` is 1
only if a document matched and was actually changed. -/
def update_one_set_password (users : List UserDoc)
    (email digest : String) : List UserDoc × Nat :=
  match users with
  | [] => ([], 0)
  | u :: rest =>
      if u.email == email then
        ({ u with hashed_password := digest } :: rest,
         if u.hashed_password == digest then 0 else 1)
      else
        let r := update_one_set_password rest email digest
        (u :: r.1, r.2)

/-- `update_one({"email": email}, {"$set": doc}, upsert=True)`: replace
every field of the first matching document (the `$set` dictionary lists
all of them), or insert the document when no match exists. -/
def upsert_user (users : List UserDoc) (email : String)
    (doc : UserDoc) : List UserDoc :=
  match users with
  | [] => [doc]
  | u :: rest =>
      if u.email == email then doc :: rest
      else u :: upsert_user rest email doc

/-- `auth.verify_otp`: find a live matching OTP record (one query for
recipient, code and non-expiry together); on a miss raise the generic
400; on a hit set the user verified in `IntrogyUsers` and, only if that
update modified a document, delete the OTP record and succeed —
otherwise raise 404 with the OTP record left in place. Returns the
resulting database state alongside the outcome. -/
def verify_otp (s : AppState) (email code : String) (now : Nat) :
    AppState × Except HTTPErr Unit :=
  match find_otp s.otps email code now with
  | none =>
      (s, .error ⟨400, "Invalid or expired verification code"⟩)
  | some otp_record =>
      let r := update_one_set_verified s.IntrogyUsers email
      if r.2 == 0 then
        ({ s with IntrogyUsers := r.1 }, .error ⟨404, "User not found"⟩)
      else
        ({ s with IntrogyUsers := r.1,
                  otps := delete_one_otp s.otps otp_record.oid },
         .ok ())

/-- `auth.send_verification_code`, restricted to its durable effect:
insert an OTP document with `created_at = now` and
`expires_at = now + timedelta(minutes=10)` (600 seconds). The generated
code and the fresh Mongo id are inputs (RNG effects); the user-existence
check only logs, and delivery is an external collaborator. -/
def send_verification_code (s : AppState) (email otp : String)
    (now oid : Nat) : AppState :=
  { s with otps := s.otps ++ [⟨oid, email, otp, now, now + 10 * 60⟩] }

/-- `auth.reset_password`: hash the new password and `update_one` the
`users` collection (not `IntrogyUsers`); 404 when nothing was modified.
The hash function is the external bcrypt collaborator. -/
def reset_password (s : AppState) (email new_password : String)
    (hash : String → String) : AppState × Except HTTPErr Unit :=
  let r := update_one_set_password s.users email (hash new_password)
  if r.2 == 0 then
    ({ s with users := r.1 }, .error ⟨404, "User not found"⟩)
  else
    ({ s with users := r.1 }, .ok ())

/-- `auth.register_with_otp`: require email, code and password; find a
live matching OTP record; delete it, then upsert the account into
`IntrogyUsers` with `is_verified = True`. The `users` collection is
never touched. -/
def register_with_otp (s : AppState)
    (email code password display_name : String) (now : Nat)
    (hash : String → String) : AppState × Except HTTPErr Unit :=
  if email == "" || code == "" || password == "" then
    (s, .error ⟨400, "Email, code, and password are required"⟩)
  else
    match find_otp s.otps email code now with
    | none =>
        (s, .error ⟨400, "Invalid or expired verification code"⟩)
    | some otp_record =>
        let otps₂ := delete_one_otp s.otps otp_record.oid
        let users₂ := upsert_user s.IntrogyUsers email
          ⟨email, hash password, some display_name, true, now⟩
        ({ s with otps := otps₂, IntrogyUsers := users₂ }, .ok ())

/-- The `User` model returned by `get_current_user` (the fields the
endpoints below use). -/
structure User where
  email : String
  display_name : Option String
  is_verified : Bool
deriving DecidableEq, Repr

/-- `security.get_current_user`: decode the bearer token (signature and
expiry checked by the library), read the `sub` claim, and look the user
up in `IntrogyUsers`; every failure is the one 401
`"Could not validate credentials"`. The `type` claim is never read and
the token manager is never consulted. -/
def get_current_user (s : AppState) (d : DecodeResult) :
    Except HTTPErr User :=
  match d with
  | .err _ => .error ⟨401, "Could not validate credentials"⟩
  | .ok p =>
      match p.sub with
      | none => .error ⟨401, "Could not validate credentials"⟩
      | some email =>
          match s.IntrogyUsers.find? (fun u => u.email == email) with
          | none => .error ⟨401, "Could not validate credentials"⟩
          | some u => .ok ⟨u.email, u.display_name, u.is_verified⟩

/-- `auth.refresh_token` endpoint: authenticate via `get_current_user`
and mint a new access token with `sub = current_user.email`; the value
returned here is the subject of that freshly minted token. -/
def refresh_token_endpoint (s : AppState) (d : DecodeResult) :
    Except HTTPErr String :=
  match get_current_user s d with
  | .error e => .error e
  | .ok u => .ok u.email

/-- `auth.verify_token` endpoint: authenticate via `get_current_user`
and echo the user back. -/
def verify_token_endpoint (s : AppState) (d : DecodeResult) :
    Except HTTPErr User :=
  match get_current_user s d with
  | .error e => .error e
  | .ok u => .ok u

/-- Deleting a document only removes: survivors were already present. -/
theorem mem_of_mem_delete_one_otp (l : List OTPDoc) (oid : Nat)
    (d : OTPDoc) (hd : d ∈ delete_one_otp l oid) : d ∈ l := by
  induction l with
  | nil => simp [delete_one_otp] at hd
  | cons x rest ih =>
      by_cases hx : x.oid = oid
      · simp only [delete_one_otp, hx, beq_self_eq_true, if_pos] at hd
        exact List.mem_cons_of_mem _ hd
      · simp only [delete_one_otp] at hd
        rw [if_neg (by simpa using hx)] at hd
        rcases List.mem_cons.mp hd with h | h
        · simp [h]
        · exact List.mem_cons_of_mem _ (ih h)

/-- With pairwise-distinct ids and `r` present, no survivor of deleting
`r.oid` still carries `r.oid`. -/
theorem delete_one_otp_removes_id (l : List OTPDoc) (r : OTPDoc)
    (hnodup : (l.map OTPDoc.oid).Nodup) (hr : r ∈ l) :
    ∀ d ∈ delete_one_otp l r.oid, d.oid ≠ r.oid := by
  induction l with
  | nil => simp at hr
  | cons x rest ih =>
      intro d hd
      simp only [List.map_cons, List.nodup_cons] at hnodup
      by_cases hx : x.oid = r.oid
      · simp only [delete_one_otp, hx, beq_self_eq_true, if_pos] at hd
        intro hdr
        have : x.oid ∈ rest.map OTPDoc.oid := by
          rw [hx, ← hdr]
          exact List.mem_map_of_mem OTPDoc.oid hd
        exact hnodup.1 this
      · simp only [delete_one_otp] at hd
        rw [if_neg (by simpa using hx)] at hd
        have hr' : r ∈ rest := by
          rcases List.mem_cons.mp hr with h | h
          · exact absurd (congrArg OTPDoc.oid h).symm hx
          · exact h
        rcases List.mem_cons.mp hd with h | h
        · rw [h]; exact hx
        · exact ih hnodup.2 hr' d h

/-- C5 counterexample. OTP verification failures are distinguishable:
with a live matching challenge for `"e@x.com"` but no such account in
`IntrogyUsers`, submitting the correct code yields
404 `"User not found"`, while submitting a wrong code yields the
generic 400 — two different client errors, so an unknown recipient is
revealed whenever the submitted code matches a live challenge. -/
theorem verify_otp_reveals_unknown_recipient :
    let s : AppState := ⟨[], [], [⟨0, "e@x.com", "111111", 0, 600⟩], ⟨[], []⟩⟩
    (verify_otp s "e@x.com" "111111" 5).2 = .error ⟨404, "User not found"⟩ ∧
    (verify_otp s "e@x.com" "222222" 5).2 =
      .error ⟨400, "Invalid or expired verification code"⟩ ∧
    (⟨404, "User not found"⟩ : HTTPErr) ≠
      ⟨400, "Invalid or expired verification code"⟩ := by
  refine ⟨rfl, rfl, by decide⟩

/-- C5 amended. Wrong, expired and missing codes are indeed collapsed:
whenever no live challenge matches the recipient and code, `verify_otp`
returns the one generic 400 error; but when the code does match a live
challenge and the account update modifies no document (recipient
unknown to `IntrogyUsers`, or already verified), a distinct
404 `"User not found"` is returned instead. -/
theorem verify_otp_failure_modes (s : AppState) (email code : String)
    (now : Nat) :
    (find_otp s.otps email code now = none →
      (verify_otp s email code now).2 =
        .error ⟨400, "Invalid or expired verification code"⟩) ∧
    ((find_otp s.otps email code now).isSome →
      (update_one_set_verified s.IntrogyUsers email).2 = 0 →
      (verify_otp s email code now).2 =
        .error ⟨404, "User not found"⟩) := by
  constructor
  · intro h
    simp [verify_otp, h]
  · intro hsome hmod
    rcases Option.isSome_iff_exists.mp hsome with ⟨r, hr⟩
    simp [verify_otp, hr, hmod]

/-- C5 amended witness: the theorem applied at a state with no matching
challenge (generic 400), and at a state with a matching challenge but
an empty account collection (404). -/
theorem verify_otp_failure_modes_witness :
    (verify_otp ⟨[], [], [], ⟨[], []⟩⟩ "a@x.com" "000000" 0).2 =
      .error ⟨400, "Invalid or expired verification code"⟩ ∧
    (verify_otp ⟨[], [], [⟨1, "a@x.com", "123456", 0, 600⟩], ⟨[], []⟩⟩
        "a@x.com" "123456" 5).2 =
      .error ⟨404, "User not found"⟩ := by
  refine ⟨(verify_otp_failure_modes ⟨[], [], [], ⟨[], []⟩⟩
    "a@x.com" "000000" 0).1 rfl, ?_⟩
  exact (verify_otp_failure_modes
    ⟨[], [], [⟨1, "a@x.com", "123456", 0, 600⟩], ⟨[], []⟩⟩
    "a@x.com" "123456" 5).2 (by decide) rfl

/-- C6 counterexample. The OTP record does survive a failed
account-store flip: with a live matching challenge for `"c@x.com"` and
no such account, the correct code yields the surfaced 404 error and the
challenge record is still present in the `otps` collection afterwards —
it was not consumed. -/
theorem otp_survives_failed_account_update :
    let s : AppState := ⟨[], [], [⟨7, "c@x.com", "654321", 0, 600⟩], ⟨[], []⟩⟩
    let r := verify_otp s "c@x.com" "654321" 9
    r.2 = .error ⟨404, "User not found"⟩ ∧
    r.1.otps = [⟨7, "c@x.com", "654321", 0, 600⟩] :=
  ⟨rfl, rfl⟩

/-- C6 amended. `verify_otp` deletes the matched challenge only after
the account update reports a modification: when the update modifies no
document, the error is surfaced and the `otps` collection is left
exactly as it was — consumption happens only on the success path. -/
theorem otp_not_consumed_on_store_failure (s : AppState)
    (email code : String) (now : Nat)
    (hsome : (find_otp s.otps email code now).isSome)
    (hmod : (update_one_set_verified s.IntrogyUsers email).2 = 0) :
    (verify_otp s email code now).2 = .error ⟨404, "User not found"⟩ ∧
    (verify_otp s email code now).1.otps = s.otps := by
  rcases Option.isSome_iff_exists.mp hsome with ⟨r, hr⟩
  constructor
  · simp [verify_otp, hr, hmod]
  · simp [verify_otp, hr, hmod]

/-- C6 amended witness: the theorem applied at a state holding one live
challenge for `"c@x.com"` and no accounts. -/
theorem otp_not_consumed_on_store_failure_witness :
    (verify_otp ⟨[], [], [⟨7, "c@x.com", "654321", 0, 600⟩], ⟨[], []⟩⟩
        "c@x.com" "654321" 9).2 = .error ⟨404, "User not found"⟩ ∧
    (verify_otp ⟨[], [], [⟨7, "c@x.com", "654321", 0, 600⟩], ⟨[], []⟩⟩
        "c@x.com" "654321" 9).1.otps =
      [⟨7, "c@x.com", "654321", 0, 600⟩] :=
  otp_not_consumed_on_store_failure
    ⟨[], [], [⟨7, "c@x.com", "654321", 0, 600⟩], ⟨[], []⟩⟩
    "c@x.com" "654321" 9 (by decide) rfl

/-- When no live record matches, `verify_otp` leaves the state alone and
returns the generic 400. -/
theorem verify_otp_of_find_none (s : AppState) (email code : String)
    (now : Nat) (h : find_otp s.otps email code now = none) :
    verify_otp s email code now =
      (s, .error ⟨400, "Invalid or expired verification code"⟩) := by
  simp [verify_otp, h]

/-- C7. OTP challenges are single-use: if a verification with the stored
code succeeds (the code matched a live record `r`, unique among live
matches for that recipient and code, ids being pairwise distinct as for
Mongo `_id`), then `r` is deleted from the `otps` collection, and an
immediately repeated verification with the same recipient and code
fails with the generic 400 `"Invalid or expired verification code"`. -/
theorem otp_single_use (s : AppState) (email code : String)
    (now now₂ : Nat) (r : OTPDoc)
    (hfind : find_otp s.otps email code now = some r)
    (hnodup : (s.otps.map OTPDoc.oid).Nodup)
    (huniq : ∀ d ∈ s.otps, d.email = email → d.code = code →
        now₂ < d.expires_at → d = r)
    (hok : (verify_otp s email code now).2 = .ok ()) :
    r ∉ (verify_otp s email code now).1.otps ∧
    (verify_otp (verify_otp s email code now).1 email code now₂).2 =
      .error ⟨400, "Invalid or expired verification code"⟩ := by
  have hrmem : r ∈ s.otps := by
    have := List.mem_of_find?_eq_some hfind
    exact this
  by_cases hmod : (update_one_set_verified s.IntrogyUsers email).2 = 0
  · exfalso
    simp [verify_otp, hfind, hmod] at hok
  · have hstate : (verify_otp s email code now).1.otps =
        delete_one_otp s.otps r.oid := by
      simp [verify_otp, hfind, hmod]
    have hids := delete_one_otp_removes_id s.otps r hnodup hrmem
    constructor
    · rw [hstate]
      intro hmem
      exact (hids r hmem) rfl
    · have hnone : find_otp (delete_one_otp s.otps r.oid) email code now₂ =
          none := by
        rw [find_otp, List.find?_eq_none]
        intro d hd hp
        simp only [Bool.and_eq_true, beq_iff_eq, decide_eq_true_eq] at hp
        have hdmem : d ∈ s.otps := mem_of_mem_delete_one_otp _ _ _ hd
        have hdr : d = r := huniq d hdmem hp.1.1 hp.1.2 hp.2
        exact (hids d hd) (by rw [hdr])
      have heq := verify_otp_of_find_none (verify_otp s email code now).1
        email code now₂ (by rw [hstate]; exact hnone)
      rw [heq]

/-- C7 witness: one live challenge for `"u@x.com"` and one unverified
account; the correct code at time 5 succeeds, consumes the record, and
the immediate replay at time 5 fails with the generic 400. -/
theorem otp_single_use_witness :
    (OTPDoc.mk 3 "u@x.com" "123456" 0 600) ∉
      (verify_otp
        ⟨[⟨"u@x.com", "h", none, false, 0⟩], [],
         [⟨3, "u@x.com", "123456", 0, 600⟩], ⟨[], []⟩⟩
        "u@x.com" "123456" 5).1.otps ∧
    (verify_otp
      (verify_otp
        ⟨[⟨"u@x.com", "h", none, false, 0⟩], [],
         [⟨3, "u@x.com", "123456", 0, 600⟩], ⟨[], []⟩⟩
        "u@x.com" "123456" 5).1
      "u@x.com" "123456" 5).2 =
      .error ⟨400, "Invalid or expired verification code"⟩ :=
  otp_single_use
    ⟨[⟨"u@x.com", "h", none, false, 0⟩], [],
     [⟨3, "u@x.com", "123456", 0, 600⟩], ⟨[], []⟩⟩
    "u@x.com" "123456" 5 5 ⟨3, "u@x.com", "123456", 0, 600⟩
    rfl (by decide) (by decide) rfl

/-- C8. OTP expiry is ten minutes and is enforced: every challenge
document newly persisted by `send_verification_code` has
`expires_at = created_at + 600` seconds (10 minutes), and when every
challenge for the given recipient and code has `expires_at ≤ now` —
the submitted code may equal the stored one — `verify_otp` fails with
the generic 400. -/
theorem otp_ttl_and_expiry_enforced :
    (∀ s email otp now oid,
      ∀ d ∈ (send_verification_code s email otp now oid).otps,
        d ∉ s.otps → d.expires_at = d.created_at + 10 * 60) ∧
    (∀ s email code now,
      (∀ d ∈ s.otps, d.email = email → d.code = code →
          d.expires_at ≤ now) →
      (verify_otp s email code now).2 =
        .error ⟨400, "Invalid or expired verification code"⟩) := by
  constructor
  · intro s email otp now oid d hd hnotin
    simp only [send_verification_code, List.mem_append,
      List.mem_singleton] at hd
    rcases hd with h | h
    · exact absurd h hnotin
    · rw [h]
  · intro s email code now hexp
    have hnone : find_otp s.otps email code now = none := by
      rw [find_otp, List.find?_eq_none]
      intro d hd hp
      simp only [Bool.and_eq_true, beq_iff_eq, decide_eq_true_eq] at hp
      exact absurd hp.2 (Nat.not_lt.mpr (hexp d hd hp.1.1 hp.1.2))
    rw [verify_otp_of_find_none s email code now hnone]

/-- C8 witness: issuing a challenge for `"b@x.com"` at time 100 yields
`expires_at = 700 = 100 + 600`, and verifying the correct stored code
at time 600 (equal to `expires_at`) fails with the generic 400. -/
theorem otp_ttl_and_expiry_enforced_witness :
    (OTPDoc.mk 4 "b@x.com" "999999" 100 700).expires_at =
      (OTPDoc.mk 4 "b@x.com" "999999" 100 700).created_at + 10 * 60 ∧
    (verify_otp ⟨[⟨"b@x.com", "h", none, false, 0⟩], [],
        [⟨2, "b@x.com", "999999", 0, 600⟩], ⟨[], []⟩⟩
        "b@x.com" "999999" 600).2 =
      .error ⟨400, "Invalid or expired verification code"⟩ := by
  constructor
  · exact otp_ttl_and_expiry_enforced.1
      ⟨[⟨"b@x.com", "h", none, false, 0⟩], [], [], ⟨[], []⟩⟩
      "b@x.com" "999999" 100 4 ⟨4, "b@x.com", "999999", 100, 700⟩
      (by decide) (by decide)
  · exact otp_ttl_and_expiry_enforced.2
      ⟨[⟨"b@x.com", "h", none, false, 0⟩], [],
       [⟨2, "b@x.com", "999999", 0, 600⟩], ⟨[], []⟩⟩
      "b@x.com" "999999" 600 (by decide)

/-- C9. `get_current_user` enforces no token type and never consults the
revocation store: its result is unchanged under any rewrite of the
`type` claim and under any change of the token-manager state (as are
the refresh-token and verify-token endpoints built on it), and any
successfully decoded payload — in particular one with
`type = "refresh"` — whose subject is found in `IntrogyUsers` is
accepted by both endpoints. -/
theorem get_current_user_ignores_type_and_revocation :
    (∀ (s : AppState) (p : Payload) (ty : Option String),
        get_current_user s (.ok { p with type := ty }) =
        get_current_user s (.ok p)) ∧
    (∀ (s : AppState) (d : DecodeResult) (t₁ t₂ : TMState),
        get_current_user { s with tokens := t₁ } d =
          get_current_user { s with tokens := t₂ } d ∧
        refresh_token_endpoint { s with tokens := t₁ } d =
          refresh_token_endpoint { s with tokens := t₂ } d ∧
        verify_token_endpoint { s with tokens := t₁ } d =
          verify_token_endpoint { s with tokens := t₂ } d) ∧
    (∀ (s : AppState) (p : Payload) (u : UserDoc),
        p.type = some "refresh" → p.sub = some u.email →
        s.IntrogyUsers.find? (fun x => x.email == u.email) = some u →
        refresh_token_endpoint s (.ok p) = .ok u.email ∧
        verify_token_endpoint s (.ok p) =
          .ok ⟨u.email, u.display_name, u.is_verified⟩) := by
  refine ⟨?_, ?_, ?_⟩
  · intro s p ty
    cases p
    rfl
  · intro s d t₁ t₂
    exact ⟨rfl, rfl, rfl⟩
  · intro s p u hty hsub hfind
    constructor
    · simp [refresh_token_endpoint, get_current_user, hsub, hfind]
    · simp [verify_token_endpoint, get_current_user, hsub, hfind]

/-- C9 witness: a decoded payload with `type = "refresh"` for the
existing account `"r@x.com"` is accepted by the refresh-token
endpoint. -/
theorem get_current_user_ignores_type_witness :
    refresh_token_endpoint
      ⟨[⟨"r@x.com", "h", none, true, 0⟩], [], [], ⟨[], []⟩⟩
      (.ok ⟨some "r@x.com", some "refresh", some "j1"⟩) =
      .ok "r@x.com" :=
  (get_current_user_ignores_type_and_revocation.2.2
    ⟨[⟨"r@x.com", "h", none, true, 0⟩], [], [], ⟨[], []⟩⟩
    ⟨some "r@x.com", some "refresh", some "j1"⟩
    ⟨"r@x.com", "h", none, true, 0⟩ rfl rfl rfl).1

/-- `update_one` on a password matches nothing when no document carries
the email: the collection is returned unchanged with
`modified_count = 0`. -/
theorem update_one_set_password_no_match (l : List UserDoc)
    (email digest : String) (h : ∀ u ∈ l, u.email ≠ email) :
    update_one_set_password l email digest = (l, 0) := by
  induction l with
  | nil => rfl
  | cons u rest ih =>
      have hu : u.email ≠ email := h u (List.mem_cons_self u rest)
      have hrest := ih (fun x hx => h x (List.mem_cons_of_mem u hx))
      simp [update_one_set_password, hu, hrest]

/-- C10. Registration and password reset target different collections:
if registration via `register_with_otp` succeeds from a state whose
`users` collection holds no document for the email, then
`reset_password` for that email fails with 404 `"User not found"`,
returns the database state entirely unchanged (every stored password
digest in both `users` and `IntrogyUsers` included), and its outcome is
the same whatever the OTP store and token-manager state contain — no
OTP or token check guards the operation. -/
theorem reset_password_misses_registered_accounts
    (s₀ s₁ : AppState) (email code password dn pw : String) (now : Nat)
    (hash : String → String)
    (habsent : ∀ u ∈ s₀.users, u.email ≠ email)
    (hreg : register_with_otp s₀ email code password dn now hash =
      (s₁, .ok ())) :
    (reset_password s₁ email pw hash).2 =
      .error ⟨404, "User not found"⟩ ∧
    (reset_password s₁ email pw hash).1 = s₁ ∧
    (∀ (o : List OTPDoc) (t : TMState),
      (reset_password { s₁ with otps := o, tokens := t } email pw
        hash).2 = (reset_password s₁ email pw hash).2) := by
  have husers : s₁.users = s₀.users := by
    unfold register_with_otp at hreg
    by_cases hemp : (email == "" || code == "" || password == "") = true
    · rw [if_pos hemp] at hreg
      exact absurd (congrArg Prod.snd hreg) (by simp)
    · rw [if_neg (by simpa using hemp)] at hreg
      match hfo : find_otp s₀.otps email code now with
      | none =>
          rw [hfo] at hreg
          exact absurd (congrArg Prod.snd hreg) (by simp)
      | some r =>
          rw [hfo] at hreg
          have := congrArg Prod.fst hreg
          simp only at this
          rw [← this]
  have habsent₁ : ∀ u ∈ s₁.users, u.email ≠ email := by
    rw [husers]; exact habsent
  have hupd := update_one_set_password_no_match s₁.users email
    (hash pw) habsent₁
  refine ⟨?_, ?_, ?_⟩
  · simp [reset_password, hupd]
  · simp [reset_password, hupd]
  · intro o t
    have hupd₂ := update_one_set_password_no_match
      ({ s₁ with otps := o, tokens := t } : AppState).users email
      (hash pw) habsent₁
    simp [reset_password, hupd, hupd₂]

/-- C10 witness: register `"a@x.com"` through the OTP flow starting
from a state whose `users` collection is empty; the account lands in
`IntrogyUsers`, and `reset_password` for the same email then fails with
404 and changes nothing. -/
theorem reset_password_misses_registered_accounts_witness :
    (reset_password
      ⟨[⟨"a@x.com", "pw", some "a", true, 5⟩], [], [], ⟨[], []⟩⟩
      "a@x.com" "npw" (fun p => p)).2 =
      .error ⟨404, "User not found"⟩ ∧
    (reset_password
      ⟨[⟨"a@x.com", "pw", some "a", true, 5⟩], [], [], ⟨[], []⟩⟩
      "a@x.com" "npw" (fun p => p)).1 =
      ⟨[⟨"a@x.com", "pw", some "a", true, 5⟩], [], [], ⟨[], []⟩⟩ := by
  have h := reset_password_misses_registered_accounts
    ⟨[], [], [⟨0, "a@x.com", "123456", 0, 600⟩], ⟨[], []⟩⟩
    ⟨[⟨"a@x.com", "pw", some "a", true, 5⟩], [], [], ⟨[], []⟩⟩
    "a@x.com" "123456" "pw" "a" "npw" 5 (fun p => p)
    (by intro u hu; simp at hu) rfl
  exact ⟨h.1, h.2.1⟩
